import Mathlib

/-!
Verification of the schema-change type-compatibility subsystem of Doris,
checked against the regression suite `test_agg_schema_key_change_modify1`
(src/unnamed/part_003), which enumerates ALTER TABLE ... MODIFY COLUMN
scenarios on AGGREGATE-model key columns together with the exact error
message (or success) each scenario must produce.

The production validator (type compatibility matrix, default-value checks
and the schema-change job state machine) is not part of the sampled
sources; only its regression test is.  We therefore:
  * embed the regression test verbatim as a table of scenarios
    (`testCases`), each carrying the exact expected outcome string;
  * model the missing validator from the specification's rules
    (`checkColumn` and friends, each marked `Modelled from the spec:`);
  * prove that the modelled validator reproduces every scenario of the
    regression test (`model_matches_tests`), grounding the model;
  * settle each claim against the test table and the grounded model.
-/

set_option maxRecDepth 100000

namespace DorisSchemaChange

/-- The SQL column types exercised by the schema-change subsystem,
with their declared parameters (precision/scale for DECIMAL, declared
length for CHAR/VARCHAR), as written in the regression test's DDL. -/
inductive DataType where
  | boolean
  | tinyint
  | smallint
  | int
  | bigint
  | largeint
  | float
  | double
  | decimal (p s : Nat)
  | char (n : Nat)
  | varchar (n : Nat)
  | string
  | date
  | datetime
  | datev2
  | datetimev2
deriving DecidableEq, Repr

namespace DataType

/-- The physical storage-width name of a DECIMAL of precision `p`
(DECIMAL32 up to 9 digits, DECIMAL64 up to 18, DECIMAL128 beyond),
as printed in the validator's error messages. -/
def decimalWidthName (p : Nat) : String :=
  if p ≤ 9 then "DECIMAL32" else if p ≤ 18 then "DECIMAL64" else "DECIMAL128"

/-- Upper-case name of the non-parameterised types. -/
def plainName : DataType → String
  | .boolean => "BOOLEAN"
  | .tinyint => "TINYINT"
  | .smallint => "SMALLINT"
  | .int => "INT"
  | .bigint => "BIGINT"
  | .largeint => "LARGEINT"
  | .float => "FLOAT"
  | .double => "DOUBLE"
  | .decimal p _ => decimalWidthName p
  | .char _ => "CHAR"
  | .varchar _ => "VARCHAR"
  | .string => "STRING"
  | .date => "DATE"
  | .datetime => "DATETIME"
  | .datev2 => "DATEV2"
  | .datetimev2 => "DATETIMEV2"

/-- Label used for the SOURCE type in `Can not change <S> to <T>` messages:
the unified physical name.  All four temporal types are stored as the V2
date encoding and report as DATEV2; CHAR is stored as VARCHAR and reports
as VARCHAR; DECIMAL reports its storage width.  (Observed throughout the
regression test's expected messages.) -/
def srcLabel : DataType → String
  | .date | .datetime | .datev2 | .datetimev2 => "DATEV2"
  | .char _ => "VARCHAR"
  | t => plainName t

/-- Label used for the TARGET type in `Can not change <S> to <T>` messages:
DECIMAL reports its storage width, CHAR/VARCHAR report without their
declared length. -/
def tgtLabel : DataType → String
  | .date | .datetime | .datev2 | .datetimev2 => "DATEV2"
  | t => plainName t

/-- Lower-case name used in the `from wider type ... to narrower type ...`
message for the source side (no length parameter). -/
def lowerName : DataType → String
  | .boolean => "boolean"
  | .tinyint => "tinyint"
  | .smallint => "smallint"
  | .int => "int"
  | .bigint => "bigint"
  | .largeint => "largeint"
  | .float => "float"
  | .double => "double"
  | .decimal _ _ => "decimal"
  | .char _ => "char"
  | .varchar _ => "varchar"
  | .string => "string"
  | .date => "date"
  | .datetime => "datetime"
  | .datev2 => "datev2"
  | .datetimev2 => "datetimev2"

/-- The integer family, ranked by representable range (used for the
key-column narrowing rule). -/
def intRank : DataType → Option Nat
  | .tinyint => some 1
  | .smallint => some 2
  | .int => some 3
  | .bigint => some 4
  | .largeint => some 5
  | _ => none

def isIntFamily (t : DataType) : Bool := (intRank t).isSome

def isTemporal : DataType → Bool
  | .date | .datetime | .datev2 | .datetimev2 => true
  | _ => false

def isFloatFamily : DataType → Bool
  | .float | .double => true
  | _ => false

def isDecimal : DataType → Bool
  | .decimal _ _ => true
  | _ => false

def isCharLike : DataType → Bool
  | .char _ | .varchar _ => true
  | _ => false

/-- Maximal textual width needed to render a value of the given type,
used when converting into a bounded VARCHAR/CHAR.  Modelled from the
spec: a conversion into a narrower text type than the source's width is
rejected (`Can not change from wider type ... to narrower type ...`);
the regression test fixes largeint's width strictly between 2 and 100. -/
def textWidth : DataType → Nat
  | .tinyint => 4
  | .smallint => 6
  | .int => 11
  | .bigint => 20
  | .largeint => 39
  | .decimal p _ => p + 2
  | .char n => n
  | .varchar n => n
  | _ => 0

end DataType

/-! ### Canonical error messages

The user-facing strings are preserved verbatim for tooling compatibility
(spec section 7); they are exactly the strings asserted by the
regression test. -/

/-- Rejection of FLOAT/DOUBLE as a key column type (both at table
creation and as an ALTER target). -/
def floatKeyMsg : String := "Float or double can not used as a key, use decimal instead."

/-- Rejection of STRING as a key column type; names the column. -/
def stringKeyMsg (name : String) : String :=
  "String Type should not be used in key column[" ++ name ++ "]."

/-- The generic incompatible-pair rejection, printed with the unified
physical type labels. -/
def genericMsg (s t : DataType) : String :=
  "Can not change " ++ s.srcLabel ++ " to " ++ t.tgtLabel

/-- Rejection of a default-value change during a column modify. -/
def defaultValueMsg : String := "Can not change default value"

/-- Rejection of a DEFAULT literal that does not parse as a date/datetime. -/
def dateLiteralMsg (lit : String) : String :=
  "date literal [" ++ lit ++ "] is invalid: null"

/-- Rejection of a conversion into a textually narrower type. -/
def narrowMsg (src tgt : String) : String :=
  "Can not change from wider type " ++ src ++ " to narrower type " ++ tgt

/-! ### The modelled validator -/

/-- A column as seen by the validator: type, name, key/value role and
optional DEFAULT literal. -/
structure ColumnSpec where
  dtype : DataType
  name : String
  isKey : Bool
  defaultValue : Option String
deriving DecidableEq, Repr

/-- Verdict of the type compatibility matrix. -/
inductive Verdict where
  | allow
  | deny (msg : String)
deriving DecidableEq, Repr

/-- Modelled from the spec: validity of a DEFAULT literal for a target
type (the literal "must itself be re-validated against the target type").
Date/datetime targets require a dash-separated canonical date literal;
the numeric/text literals exercised by the test ("0", "1") are valid for
every non-temporal target. -/
def defaultLiteralValid (lit : String) (t : DataType) : Bool :=
  if t.isTemporal then lit.data.contains (Char.ofNat 45) else true

/-- Modelled from the spec: the raw (source type, target type) entries of
the compatibility matrix for a KEY column, after the key-specific FLOAT /
DOUBLE / STRING rules have already fired.  Deny-by-default posture: a
pair is allowed only when explicitly enumerated (spec section 9).
  * integer → integer: only range-preserving (non-narrowing) changes;
  * integer / decimal → varchar: allowed, subject to the width check;
  * char/varchar → integer or temporal target: allowed, subject to the
    default-value checks;
  * char → varchar, varchar → varchar: allowed, subject to width;
  * temporal → temporal: allowed;
  * everything else (including temporal → text/numeric,
    char/varchar → boolean/decimal, varchar → char): denied with the
    generic message. -/
def pairAllowed (s t : DataType) : Bool :=
  match s, t with
  | s, t =>
    if s == t then true
    else if s.isIntFamily && t.isIntFamily then
      ((s.intRank).getD 0) ≤ ((t.intRank).getD 0)
    else if s.isIntFamily && t.isCharLike then
      match t with
      | .varchar _ => true
      | _ => false
    else if s.isDecimal then
      match t with
      | .varchar _ => true
      | _ => false
    else if s.isTemporal && t.isTemporal then true
    else if s.isCharLike then
      if t.isIntFamily || t.isTemporal || t == .string then true
      else
        match s, t with
        | .char _, .varchar _ => true
        | .varchar _, .varchar _ => true
        | _, _ => false
    else false

/-- Modelled from the spec: the width check applied once a pair is
allowed — converting into a bounded text type narrower than the source's
textual width is rejected, the target printed with its declared length. -/
def checkWidth (s t : DataType) : Verdict :=
  match t with
  | .varchar m =>
    if m < s.textWidth then
      .deny (narrowMsg s.lowerName ("varchar(" ++ toString m ++ ")"))
    else .allow
  | .char m =>
    if m < s.textWidth then
      .deny (narrowMsg s.lowerName ("char(" ++ toString m ++ ")"))
    else .allow
  | _ => .allow

/-- Modelled from the spec: the Type Compatibility Matrix
`check(sourceColumn, targetColumn)`.  Order of rules:
  1. FLOAT/DOUBLE can never be a KEY target, regardless of source — this
     rule takes precedence over all others;
  2. STRING can never be a KEY target;
  3. a DEFAULT literal that does not parse as the target type is
     rejected with the date-literal analyzer message;
  4. the pair matrix (`pairAllowed`) with the generic message;
  5. a changed default value is rejected (`Can not change default value`);
  6. the text-width narrowing check. -/
def checkColumn (src tgt : ColumnSpec) : Verdict :=
  if tgt.isKey && tgt.dtype.isFloatFamily then .deny floatKeyMsg
  else if tgt.isKey && tgt.dtype == .string then .deny (stringKeyMsg tgt.name)
  else
    match tgt.defaultValue with
    | some lit =>
      if !(defaultLiteralValid lit tgt.dtype) then .deny (dateLiteralMsg lit)
      else checkColumnRest src tgt
    | none => checkColumnRest src tgt
where
  checkColumnRest (src tgt : ColumnSpec) : Verdict :=
    if !(pairAllowed src.dtype tgt.dtype) then
      .deny (genericMsg src.dtype tgt.dtype)
    else if tgt.defaultValue != src.defaultValue then .deny defaultValueMsg
    else checkWidth src.dtype tgt.dtype

/-! ### The embedded regression test

`test_agg_schema_key_change_modify1` (src/unnamed/part_003) creates an
AGGREGATE-model table whose third key column has a given source type,
loads seven rows, issues `ALTER TABLE ... MODIFY column <name> <target>
key [DEFAULT <lit>]`, and asserts either success or an exception carrying
an exact message.  Each scenario below transcribes one such block, in
file order. -/

/-- Outcome the test harness asserts for a scenario: success of the
schema change, or an exception carrying an exact message. -/
inductive Outcome where
  | success
  | fail (msg : String)
deriving DecidableEq, Repr

/-- One scenario of the regression test: source key column type and
name, ALTER target type, optional DEFAULT literal of the target, and the
outcome the test asserts. -/
structure AlterCase where
  srcType : DataType
  colName : String
  tgtType : DataType
  tgtDefault : Option String
  expected : Outcome
deriving DecidableEq, Repr

/-- The exception-message wrapper the test harness observes. -/
def em (s : String) : String := "errCode = 2, detailMessage = " ++ s

/-- LARGEINT key column `sn_number` → other types. -/
def largeintCases : List AlterCase := [
  ⟨.largeint, "sn_number", .boolean, none, .fail (em "Can not change LARGEINT to BOOLEAN")⟩,
  ⟨.largeint, "sn_number", .tinyint, none, .fail (em "Can not change LARGEINT to TINYINT")⟩,
  ⟨.largeint, "sn_number", .smallint, none, .fail (em "Can not change LARGEINT to SMALLINT")⟩,
  ⟨.largeint, "sn_number", .int, none, .fail (em "Can not change LARGEINT to INT")⟩,
  ⟨.largeint, "sn_number", .bigint, none, .fail (em "Can not change LARGEINT to BIGINT")⟩,
  ⟨.largeint, "sn_number", .float, none, .fail (em "Float or double can not used as a key, use decimal instead.")⟩,
  ⟨.largeint, "sn_number", .double, none, .fail (em "Float or double can not used as a key, use decimal instead.")⟩,
  ⟨.largeint, "sn_number", .decimal 38 0, none, .fail (em "Can not change LARGEINT to DECIMAL128")⟩,
  ⟨.largeint, "sn_number", .char 15, none, .fail (em "Can not change LARGEINT to CHAR")⟩,
  ⟨.largeint, "sn_number", .varchar 100, none, .success⟩,
  ⟨.largeint, "sn_number", .varchar 2, none, .fail (em "Can not change from wider type largeint to narrower type varchar(2)")⟩,
  ⟨.largeint, "sn_number", .string, none, .fail (em "String Type should not be used in key column[sn_number].")⟩]

/-- FLOAT key column `score` → other types: the CREATE TABLE itself is
rejected (FLOAT cannot be a key), so every block expects the
float-as-key message. -/
def floatCases : List AlterCase := [
  ⟨.float, "score", .boolean, none, .fail (em "Float or double can not used as a key, use decimal instead.")⟩,
  ⟨.float, "score", .tinyint, none, .fail (em "Float or double can not used as a key, use decimal instead.")⟩,
  ⟨.float, "score", .smallint, none, .fail (em "Float or double can not used as a key, use decimal instead.")⟩,
  ⟨.float, "score", .int, none, .fail (em "Float or double can not used as a key, use decimal instead.")⟩,
  ⟨.float, "score", .bigint, none, .fail (em "Float or double can not used as a key, use decimal instead.")⟩,
  ⟨.float, "score", .float, none, .fail (em "Float or double can not used as a key, use decimal instead.")⟩,
  ⟨.float, "score", .double, none, .fail (em "Float or double can not used as a key, use decimal instead.")⟩,
  ⟨.float, "score", .decimal 38 0, none, .fail (em "Float or double can not used as a key, use decimal instead.")⟩,
  ⟨.float, "score", .char 15, none, .fail (em "Float or double can not used as a key, use decimal instead.")⟩,
  ⟨.float, "score", .varchar 100, none, .fail (em "Float or double can not used as a key, use decimal instead.")⟩,
  ⟨.float, "score", .string, none, .fail (em "Float or double can not used as a key, use decimal instead.")⟩]

/-- DOUBLE key column `score` → other types: as for FLOAT, the CREATE is
rejected, so every block expects the float-as-key message. -/
def doubleCases : List AlterCase := [
  ⟨.double, "score", .boolean, none, .fail (em "Float or double can not used as a key, use decimal instead.")⟩,
  ⟨.double, "score", .tinyint, none, .fail (em "Float or double can not used as a key, use decimal instead.")⟩,
  ⟨.double, "score", .smallint, none, .fail (em "Float or double can not used as a key, use decimal instead.")⟩,
  ⟨.double, "score", .int, none, .fail (em "Float or double can not used as a key, use decimal instead.")⟩,
  ⟨.double, "score", .bigint, none, .fail (em "Float or double can not used as a key, use decimal instead.")⟩,
  ⟨.double, "score", .float, none, .fail (em "Float or double can not used as a key, use decimal instead.")⟩,
  ⟨.double, "score", .float, none, .fail (em "Float or double can not used as a key, use decimal instead.")⟩,
  ⟨.double, "score", .decimal 38 0, none, .fail (em "Float or double can not used as a key, use decimal instead.")⟩,
  ⟨.double, "score", .char 15, none, .fail (em "Float or double can not used as a key, use decimal instead.")⟩,
  ⟨.double, "score", .varchar 100, none, .fail (em "Float or double can not used as a key, use decimal instead.")⟩,
  ⟨.double, "score", .string, none, .fail (em "Float or double can not used as a key, use decimal instead.")⟩]

/-- DECIMAL(38,10) key column `rice` → other types. -/
def decimalCases : List AlterCase := [
  ⟨.decimal 38 10, "rice", .boolean, none, .fail (em "Can not change DECIMAL128 to BOOLEAN")⟩,
  ⟨.decimal 38 10, "rice", .tinyint, none, .fail (em "Can not change DECIMAL128 to TINYINT")⟩,
  ⟨.decimal 38 10, "rice", .smallint, none, .fail (em "Can not change DECIMAL128 to SMALLINT")⟩,
  ⟨.decimal 38 10, "rice", .int, none, .fail (em "Can not change DECIMAL128 to INT")⟩,
  ⟨.decimal 38 10, "rice", .bigint, none, .fail (em "Can not change DECIMAL128 to BIGINT")⟩,
  ⟨.decimal 38 10, "rice", .largeint, none, .fail (em "Can not change DECIMAL128 to LARGEINT")⟩,
  ⟨.decimal 38 10, "rice", .float, none, .fail (em "Float or double can not used as a key, use decimal instead.")⟩,
  ⟨.decimal 38 10, "rice", .double, none, .fail (em "Float or double can not used as a key, use decimal instead.")⟩,
  ⟨.decimal 38 10, "rice", .char 15, none, .fail (em "Can not change DECIMAL128 to CHAR")⟩,
  ⟨.decimal 38 10, "rice", .varchar 100, none, .success⟩,
  ⟨.decimal 38 10, "rice", .string, none, .fail (em "String Type should not be used in key column[rice].")⟩]

/-- One block of the temporal sections: the source temporal key column
`login_time` altered to the given target with a DEFAULT literal; every
temporal source reports as DATEV2. -/
def temporalBlock (src : DataType) : List AlterCase := [
  ⟨src, "login_time", .boolean, some "1", .fail (em "Can not change DATEV2 to BOOLEAN")⟩,
  ⟨src, "login_time", .tinyint, some "1", .fail (em "Can not change DATEV2 to TINYINT")⟩,
  ⟨src, "login_time", .smallint, some "1", .fail (em "Can not change DATEV2 to SMALLINT")⟩,
  ⟨src, "login_time", .int, some "1", .fail (em "Can not change DATEV2 to INT")⟩,
  ⟨src, "login_time", .bigint, some "0", .fail (em "Can not change DATEV2 to BIGINT")⟩,
  ⟨src, "login_time", .float, some "0", .fail (em "Float or double can not used as a key, use decimal instead.")⟩,
  ⟨src, "login_time", .decimal 9 0, some "0", .fail (em "Can not change DATEV2 to DECIMAL32")⟩,
  ⟨src, "login_time", .char 1, some "0", .fail (em "Can not change DATEV2 to CHAR")⟩,
  ⟨src, "login_time", .string, some "0", .fail (em "String Type should not be used in key column[login_time].")⟩,
  ⟨src, "login_time", .varchar 32, some "0", .fail (em "Can not change DATEV2 to VARCHAR")⟩]

/-- The extra repeated blocks inside the second DATE section and the
DATEV2 section (BIGINT through VARCHAR appear twice there). -/
def temporalRepeatBlock (src : DataType) : List AlterCase := [
  ⟨src, "login_time", .bigint, some "0", .fail (em "Can not change DATEV2 to BIGINT")⟩,
  ⟨src, "login_time", .float, some "0", .fail (em "Float or double can not used as a key, use decimal instead.")⟩,
  ⟨src, "login_time", .decimal 9 0, some "0", .fail (em "Can not change DATEV2 to DECIMAL32")⟩,
  ⟨src, "login_time", .char 1, some "0", .fail (em "Can not change DATEV2 to CHAR")⟩,
  ⟨src, "login_time", .string, some "0", .fail (em "String Type should not be used in key column[login_time].")⟩,
  ⟨src, "login_time", .varchar 32, some "0", .fail (em "Can not change DATEV2 to VARCHAR")⟩]

/-- CHAR(255) key column `username` → other types, each with a DEFAULT
literal. -/
def charCases : List AlterCase := [
  ⟨.char 255, "username", .boolean, some "1", .fail (em "Can not change VARCHAR to BOOLEAN")⟩,
  ⟨.char 255, "username", .tinyint, some "1", .fail (em "Can not change default value")⟩,
  ⟨.char 255, "username", .smallint, some "1", .fail (em "Can not change default value")⟩,
  ⟨.char 255, "username", .int, some "1", .fail (em "Can not change default value")⟩,
  ⟨.char 255, "username", .bigint, some "0", .fail (em "Can not change default value")⟩,
  ⟨.char 255, "username", .float, some "0", .fail (em "Float or double can not used as a key, use decimal instead.")⟩,
  ⟨.char 255, "username", .decimal 9 0, some "0", .fail (em "Can not change VARCHAR to DECIMAL32")⟩,
  ⟨.char 255, "username", .datetime, some "0", .fail (em "date literal [0] is invalid: null")⟩,
  ⟨.char 255, "username", .string, some "0", .fail (em "String Type should not be used in key column[username].")⟩,
  ⟨.char 255, "username", .varchar 32, some "0", .fail (em "Can not change default value")⟩]

/-- VARCHAR key column `username` (declared without a length) → other
types, each with a DEFAULT literal. -/
def varcharCases : List AlterCase := [
  ⟨.varchar 65533, "username", .boolean, some "1", .fail (em "Can not change VARCHAR to BOOLEAN")⟩,
  ⟨.varchar 65533, "username", .tinyint, some "1", .fail (em "Can not change default value")⟩,
  ⟨.varchar 65533, "username", .smallint, some "1", .fail (em "Can not change default value")⟩,
  ⟨.varchar 65533, "username", .int, some "1", .fail (em "Can not change default value")⟩,
  ⟨.varchar 65533, "username", .bigint, some "0", .fail (em "Can not change default value")⟩,
  ⟨.varchar 65533, "username", .float, some "0", .fail (em "Float or double can not used as a key, use decimal instead.")⟩,
  ⟨.varchar 65533, "username", .decimal 9 0, some "0", .fail (em "Can not change VARCHAR to DECIMAL32")⟩,
  ⟨.varchar 65533, "username", .datetime, some "0", .fail (em "date literal [0] is invalid: null")⟩,
  ⟨.varchar 65533, "username", .string, some "0", .fail (em "String Type should not be used in key column[username].")⟩,
  ⟨.varchar 65533, "username", .char 32, some "0", .fail (em "Can not change VARCHAR to CHAR")⟩]

/-- All scenarios of `test_agg_schema_key_change_modify1`, in file
order: LARGEINT, FLOAT, DOUBLE, DECIMAL sections; first DATE and
DATETIME sections; CHAR and VARCHAR sections; second DATE section (with
its repeated tail), DATEV2 (with its repeated tail), DATETIMEV2, and the
final DATETIME section. -/
def testCases : List AlterCase :=
  largeintCases ++ floatCases ++ doubleCases ++ decimalCases ++
  temporalBlock .date ++ temporalBlock .datetime ++
  charCases ++ varcharCases ++
  (temporalBlock .date ++ temporalRepeatBlock .date) ++
  (temporalBlock .datev2 ++ temporalRepeatBlock .datev2) ++
  temporalBlock .datetimev2 ++ temporalBlock .datetime

/-! ### Running a scenario through the model -/

/-- Modelled from the spec: FLOAT and DOUBLE (and STRING) can never be a
KEY column type, so a CREATE TABLE declaring such a key column is itself
rejected before any ALTER can run. -/
def keyTypeForbiddenAtCreate (t : DataType) : Bool := t.isFloatFamily

/-- The source column of a scenario as the validator sees it. -/
def srcColumn (c : AlterCase) : ColumnSpec :=
  ⟨c.srcType, c.colName, true, none⟩

/-- The target column of a scenario as the validator sees it. -/
def tgtColumn (c : AlterCase) : ColumnSpec :=
  ⟨c.tgtType, c.colName, true, c.tgtDefault⟩

/-- Outcome of one regression-test scenario under the modelled
validator: the CREATE fails for a float/double key source; otherwise the
ALTER is validated by the matrix. -/
def runScenario (c : AlterCase) : Outcome :=
  if keyTypeForbiddenAtCreate c.srcType then .fail (em floatKeyMsg)
  else
    match checkColumn (srcColumn c) (tgtColumn c) with
    | .allow => .success
    | .deny m => .fail (em m)

/-! ### The modelled schema-change job

The job state machine and conversion executor are likewise absent from
the sampled sources; they are modelled from spec sections 4.2, 4.4 and 8,
focused on the single altered key column. -/

/-- A stored cell value of the altered column. -/
inductive Value where
  | intV (n : Int)
  | strV (s : String)
  | nullV
deriving DecidableEq, Repr

/-- Modelled from the spec: the Conversion Executor's per-value rewrite
for the altered column — NULL stays NULL, a numeric value converted into
a text type is re-encoded as its canonical decimal text form, and other
conversions carry the value (widened) unchanged. -/
def convertValue (t : DataType) (v : Value) : Value :=
  match v with
  | .nullV => .nullV
  | .intV n =>
    if t.isCharLike || t == .string then .strV (toString n) else .intV n
  | .strV s => .strV s

/-- Modelled from the spec: whether a value is accepted for storage
under a column type (the post-alter insert path): text fits a bounded
VARCHAR/CHAR only within its declared length, STRING is unbounded and
numeric columns take numeric values. -/
def valueFits (t : DataType) (v : Value) : Bool :=
  match v with
  | .nullV => true
  | .intV _ => t.isIntFamily || t.isDecimal || t.isFloatFamily || t == .boolean
  | .strV s =>
    match t with
    | .varchar n => s.length ≤ n
    | .char n => s.length ≤ n
    | .string => true
    | _ => false

/-- The visible table state: monotone schema version, the altered key
column's definition, and its stored values (one per row). -/
structure Table where
  version : Nat
  col : ColumnSpec
  rows : List Value
deriving DecidableEq, Repr

/-- Terminal-relevant states of the schema-change job state machine. -/
inductive JobState where
  | pending
  | waitingTxn
  | running
  | finished
  | cancelled
deriving DecidableEq, Repr

/-- Modelled from the spec: one whole schema-change job run to a
terminal state.  Validation against the Type Compatibility Matrix runs
first; a denial cancels the job with the table untouched.  Otherwise the
shadow replica is built from every row converted by the Conversion
Executor; `execFail` models any execution failure before the final
atomic swap (shard task timeout, worker crash), which discards the
shadow and leaves the original storage — still serving reads and
writes — exactly as it was.  Only a fully successful job performs the
swap, bumping the schema version by exactly one. -/
def runJob (t : Table) (tgt : ColumnSpec) (execFail : Bool) : JobState × Table :=
  match checkColumn t.col tgt with
  | .deny _ => (.cancelled, t)
  | .allow =>
    if execFail then (.cancelled, t)
    else
      (.finished,
        { version := t.version + 1
          col := tgt
          rows := t.rows.map (convertValue tgt.dtype) })

/-- The seven `sn_number` LARGEINT key values loaded by the regression
test before the LARGEINT → VARCHAR(100) alter. -/
def snValues : List Value :=
  [.intV 2147483641, .intV 214748364, .intV 2147483441, .intV 2147483141,
   .intV 2127483141, .intV 2124483141, .intV 2123483141]

/-- The same seven values re-encoded as their decimal text form — the
contents of the comparison table the regression test builds after the
successful alter. -/
def snTexts : List Value :=
  [.strV "2147483641", .strV "214748364", .strV "2147483441", .strV "2147483141",
   .strV "2127483141", .strV "2124483141", .strV "2123483141"]

/-- The regression test's table before the LARGEINT → VARCHAR(100)
alter. -/
def largeintTable : Table := ⟨1, ⟨.largeint, "sn_number", true, none⟩, snValues⟩

/-- The VARCHAR(100) key target of the successful alter. -/
def varchar100Col : ColumnSpec := ⟨.varchar 100, "sn_number", true, none⟩

/-! ### Consistency of the modelled validator with the regression test -/

/-- The modelled validator reproduces every one of the 137 scenarios of
`test_agg_schema_key_change_modify1`, message for message. -/
theorem model_matches_tests :
    testCases.all (fun c => runScenario c == c.expected) = true := by decide

/-! ### Auxiliary predicates used to state the claims -/

/-- Fixed-length CHAR targets. -/
def DataType.isCharFixed : DataType → Bool
  | .char _ => true
  | _ => false

/-- Width of the canonical textual representation of a temporal value
(`YYYY-MM-DD` and `YYYY-MM-DD hh:mm:ss`). -/
def DataType.canonicalTextWidth : DataType → Nat
  | .date | .datev2 => 10
  | .datetime | .datetimev2 => 19
  | _ => 0

/-- Whether the target is a VARCHAR/CHAR whose declared length suffices
for the canonical textual representation of the source. -/
def sufficientTextTarget (s t : DataType) : Bool :=
  match t with
  | .varchar m => s.canonicalTextWidth ≤ m
  | .char m => s.canonicalTextWidth ≤ m
  | _ => false

/-- Boolean list-leading test on raw characters. -/
def charsLead : List Char → List Char → Bool
  | [], _ => true
  | _ :: _, [] => false
  | a :: as, b :: bs => a == b && charsLead as bs

/-- Whether a raw expected message has the shape of the generic
`Can not change <S> to <T>` rejection (as opposed to the narrowing,
default-value, date-literal, float-key or string-key messages). -/
def msgHasGenericShape (m : String) : Bool :=
  charsLead ("errCode = 2, detailMessage = Can not change ").data m.data &&
  !(charsLead ("errCode = 2, detailMessage = Can not change from wider type ").data m.data) &&
  m != em defaultValueMsg

/-- Label-correctness of one scenario: a generic-shaped rejection must
print exactly the unified physical source and target labels. -/
def genericLabelOk (c : AlterCase) : Bool :=
  match c.expected with
  | .success => true
  | .fail m => !(msgHasGenericShape m) || m == em (genericMsg c.srcType c.tgtType)

/-! ### Literal formalizations of the claims that fail on the code -/

/-- Claim C4 as stated, read over the regression test: every
DECIMAL-source scenario targeting the integer/boolean/char/string/
varchar/date families is rejected with `Can not change DECIMAL128 to
<TARGET>`. -/
def claimC4 : Prop :=
  ∀ c ∈ testCases, c.srcType.isDecimal = true →
    (c.tgtType.isIntFamily || c.tgtType == .boolean || c.tgtType.isCharLike ||
      c.tgtType == .string || c.tgtType.isTemporal) = true →
    c.expected = .fail (em ("Can not change DECIMAL128 to " ++ c.tgtType.tgtLabel))

/-- Claim C5 as stated, read over the regression test: a temporal source
is rejected for every numeric/BOOLEAN target with the generic message,
and accepted for every VARCHAR/CHAR target of sufficient declared
length. -/
def claimC5 : Prop :=
  ∀ c ∈ testCases, c.srcType.isTemporal = true →
    ((c.tgtType.isIntFamily || c.tgtType.isFloatFamily || c.tgtType.isDecimal ||
        c.tgtType == .boolean) = true →
      c.expected = .fail (em (genericMsg c.srcType c.tgtType))) ∧
    (sufficientTextTarget c.srcType c.tgtType = true → c.expected = .success)

/-- Claim C6 as stated, read over the regression test: a CHAR/VARCHAR
source converted to a numeric/BOOLEAN/DATETIME target while carrying a
DEFAULT literal fails with `Can not change default value` exactly when
the literal does not parse as the target type, and with the generic
type-change message otherwise. -/
def claimC6 : Prop :=
  ∀ c ∈ testCases, c.srcType.isCharLike = true →
    (c.tgtType.isIntFamily || c.tgtType == .boolean || c.tgtType == .datetime) = true →
    ∀ lit, c.tgtDefault = some lit →
      c.expected = .fail (em (if defaultLiteralValid lit c.tgtType then
        genericMsg c.srcType c.tgtType else defaultValueMsg))

/-- Claim C7 as stated, read over the regression test: narrowing a key
column within the integer family is rejected with
`Cannot change <wider> to <narrower>`. -/
def claimC7 : Prop :=
  ∀ c ∈ testCases, c.srcType.isIntFamily = true → c.tgtType.isIntFamily = true →
    c.tgtType.intRank.getD 0 < c.srcType.intRank.getD 0 →
    c.expected = .fail (em ("Cannot change " ++ c.srcType.plainName ++ " to " ++
      c.tgtType.plainName))

/-- Claim C8 as stated, read over the regression test: every scenario
whose VARCHAR(m) target is narrower than the source's textual width is
rejected with the `from wider type ... to narrower type varchar(m)`
message. -/
def claimC8 : Prop :=
  ∀ c ∈ testCases, keyTypeForbiddenAtCreate c.srcType = false →
    (match c.tgtType with
     | .varchar m => m < c.srcType.textWidth
     | _ => false) = true →
    c.expected = .fail (em (narrowMsg c.srcType.lowerName
      ("varchar(" ++ toString (match c.tgtType with | .varchar m => m | _ => 0) ++ ")")))

/-! ### Claim theorems -/

/-- C1: for every source column, an ALTER whose KEY target type is
FLOAT or DOUBLE is denied by the Type Compatibility Matrix with exactly
`Float or double can not used as a key, use decimal instead.`, this rule
firing before any other (in particular before the DECIMAL128 generic
message and the default-value checks, which sit later in `checkColumn`);
and every FLOAT/DOUBLE-target scenario of the regression test asserts
exactly that message. -/
theorem c1_float_double_key_target_rejected (src tgt : ColumnSpec)
    (hk : tgt.isKey = true) (hf : tgt.dtype.isFloatFamily = true) :
    checkColumn src tgt = .deny floatKeyMsg ∧
    ∀ c ∈ testCases, c.tgtType.isFloatFamily = true →
      c.expected = .fail (em floatKeyMsg) := by
  constructor
  · unfold checkColumn
    simp [hk, hf]
  · decide

/-- Witness for C1: the DECIMAL(38,10) key column `rice` altered to a
FLOAT key is denied with the float-as-key message, not the DECIMAL128
one. -/
theorem c1_float_double_key_target_rejected_witness :
    checkColumn ⟨.decimal 38 10, "rice", true, none⟩ ⟨.float, "rice", true, none⟩ =
      .deny floatKeyMsg ∧
    ∀ c ∈ testCases, c.tgtType.isFloatFamily = true →
      c.expected = .fail (em floatKeyMsg) :=
  c1_float_double_key_target_rejected ⟨.decimal 38 10, "rice", true, none⟩
    ⟨.float, "rice", true, none⟩ (by decide) (by decide)

/-- C2: for every source column and every column name, an ALTER whose
KEY target type is STRING is denied by the Type Compatibility Matrix
with exactly `String Type should not be used in key column[<name>].`;
and every STRING-target scenario of the regression test whose table
could be created (source key type not FLOAT/DOUBLE) asserts exactly that
message with the column's name interpolated. -/
theorem c2_string_key_target_rejected (src tgt : ColumnSpec)
    (hk : tgt.isKey = true) (hs : tgt.dtype = .string) :
    checkColumn src tgt = .deny (stringKeyMsg tgt.name) ∧
    ∀ c ∈ testCases, c.tgtType = .string →
      keyTypeForbiddenAtCreate c.srcType = false →
      c.expected = .fail (em (stringKeyMsg c.colName)) := by
  constructor
  · unfold checkColumn
    simp [hk, hs, DataType.isFloatFamily]
  · decide

/-- Witness for C2: the LARGEINT key column `sn_number` altered to a
STRING key is denied with the string-key message naming `sn_number`. -/
theorem c2_string_key_target_rejected_witness :
    checkColumn ⟨.largeint, "sn_number", true, none⟩ ⟨.string, "sn_number", true, none⟩ =
      .deny (stringKeyMsg "sn_number") ∧
    ∀ c ∈ testCases, c.tgtType = .string →
      keyTypeForbiddenAtCreate c.srcType = false →
      c.expected = .fail (em (stringKeyMsg c.colName)) :=
  c2_string_key_target_rejected ⟨.largeint, "sn_number", true, none⟩
    ⟨.string, "sn_number", true, none⟩ (by decide) (by decide)

/-- C3: every schema-change job run by the modelled state machine either
reaches FINISHED with the schema version advanced by exactly one, the
column swapped to the target definition and every row visible converted
under the new schema, or — on any failure before the final atomic swap,
a validation denial as well as an execution failure — leaves the table
exactly as it was (same version, same schema, same rows, hence still
serving reads and writes). -/
theorem c3_schema_change_atomic (t : Table) (tgt : ColumnSpec) (execFail : Bool) :
    ((runJob t tgt execFail).1 = .finished ∧
      (runJob t tgt execFail).2.version = t.version + 1 ∧
      (runJob t tgt execFail).2.col = tgt ∧
      (runJob t tgt execFail).2.rows = t.rows.map (convertValue tgt.dtype)) ∨
    ((runJob t tgt execFail).1 = .cancelled ∧ (runJob t tgt execFail).2 = t) := by
  cases hv : checkColumn t.col tgt <;> cases execFail <;> simp [runJob, hv]

/-- C4 counterexample: the claim demands that changing DECIMAL(p,s) to
any integer/boolean/char/string/varchar/date-family type is rejected
with `Can not change DECIMAL128 to <TARGET>`, but the regression test's
DECIMAL(38,10) key → VARCHAR(100) key scenario succeeds, so the claim as
stated is false. -/
theorem c4_counterexample : ¬ claimC4 := by
  intro h
  have h0 := h ⟨.decimal 38 10, "rice", .varchar 100, none, .success⟩
    (by decide) (by decide) (by decide)
  exact absurd h0 (by decide)

/-- C4 amended: changing a DECIMAL(38,10) key column to the integer,
boolean or fixed-CHAR families is rejected with `Can not change
DECIMAL128 to <TARGET>` (in particular BOOLEAN); but a VARCHAR(100)
target succeeds and a STRING target fails with the string-key message
instead. -/
theorem c4_decimal_reject_amended (c : AlterCase) (hmem : c ∈ testCases)
    (hsrc : c.srcType.isDecimal = true)
    (htgt : (c.tgtType.isIntFamily || c.tgtType == .boolean ||
             c.tgtType.isCharFixed) = true) :
    c.expected = .fail (em ("Can not change DECIMAL128 to " ++ c.tgtType.tgtLabel)) ∧
    (⟨.decimal 38 10, "rice", .varchar 100, none, .success⟩ : AlterCase) ∈ testCases ∧
    (⟨.decimal 38 10, "rice", .string, none,
       .fail (em "String Type should not be used in key column[rice].")⟩ : AlterCase)
      ∈ testCases := by
  refine ⟨?_, by decide, by decide⟩
  have H : ∀ x ∈ testCases, x.srcType.isDecimal = true →
      (x.tgtType.isIntFamily || x.tgtType == .boolean || x.tgtType.isCharFixed) = true →
      x.expected = .fail (em ("Can not change DECIMAL128 to " ++ x.tgtType.tgtLabel)) := by
    decide
  exact H c hmem hsrc htgt

/-- Witness for the amended C4 at the DECIMAL(38,10) → BOOLEAN scenario:
it is rejected with `Can not change DECIMAL128 to BOOLEAN`. -/
theorem c4_decimal_reject_amended_witness :
    (Outcome.fail (em "Can not change DECIMAL128 to BOOLEAN") =
      .fail (em ("Can not change DECIMAL128 to " ++ DataType.tgtLabel .boolean))) ∧
    (⟨.decimal 38 10, "rice", .varchar 100, none, .success⟩ : AlterCase) ∈ testCases ∧
    (⟨.decimal 38 10, "rice", .string, none,
       .fail (em "String Type should not be used in key column[rice].")⟩ : AlterCase)
      ∈ testCases :=
  c4_decimal_reject_amended
    ⟨.decimal 38 10, "rice", .boolean, none,
      .fail (em "Can not change DECIMAL128 to BOOLEAN")⟩
    (by decide) (by decide) (by decide)

/-- C5 counterexample: the claim says a temporal source is convertible
to a VARCHAR/CHAR of sufficient declared length, but the regression
test's DATE key → VARCHAR(32) scenario (32 ≥ 10 characters of
`YYYY-MM-DD`) is rejected with `Can not change DATEV2 to VARCHAR`, so
the claim as stated is false. -/
theorem c5_counterexample : ¬ claimC5 := by
  intro h
  have h0 := (h ⟨.date, "login_time", .varchar 32, some "0",
      .fail (em "Can not change DATEV2 to VARCHAR")⟩ (by decide) (by decide)).2 (by decide)
  exact absurd h0 (by decide)

/-- C5 amended: in the regression test every temporal-source (DATE,
DATETIME, DATEV2, DATETIMEV2) key scenario is rejected: FLOAT/DOUBLE
targets with the float-as-key message, STRING targets with the
string-key message, and every other target — numeric, BOOLEAN and also
VARCHAR/CHAR of any length — with `Can not change DATEV2 to
<TARGET>`. -/
theorem c5_temporal_reject_amended (c : AlterCase) (hmem : c ∈ testCases)
    (hsrc : c.srcType.isTemporal = true) :
    (c.tgtType.isFloatFamily = true → c.expected = .fail (em floatKeyMsg)) ∧
    (c.tgtType = .string → c.expected = .fail (em (stringKeyMsg c.colName))) ∧
    (c.tgtType.isFloatFamily = false → c.tgtType ≠ .string →
      c.expected = .fail (em (genericMsg c.srcType c.tgtType))) := by
  have H : ∀ x ∈ testCases, x.srcType.isTemporal = true →
      ((x.tgtType.isFloatFamily = true → x.expected = .fail (em floatKeyMsg)) ∧
       (x.tgtType = .string → x.expected = .fail (em (stringKeyMsg x.colName))) ∧
       (x.tgtType.isFloatFamily = false → x.tgtType ≠ .string →
         x.expected = .fail (em (genericMsg x.srcType x.tgtType)))) := by
    decide
  exact H c hmem hsrc

/-- Witness for the amended C5 at the DATE → VARCHAR(32) scenario: a
temporal source is rejected even for a sufficiently long VARCHAR
target. -/
theorem c5_temporal_reject_amended_witness :
    ((DataType.varchar 32).isFloatFamily = true →
      Outcome.fail (em "Can not change DATEV2 to VARCHAR") = .fail (em floatKeyMsg)) ∧
    (DataType.varchar 32 = .string →
      Outcome.fail (em "Can not change DATEV2 to VARCHAR") =
        .fail (em (stringKeyMsg "login_time"))) ∧
    ((DataType.varchar 32).isFloatFamily = false → DataType.varchar 32 ≠ .string →
      Outcome.fail (em "Can not change DATEV2 to VARCHAR") =
        .fail (em (genericMsg .date (.varchar 32)))) :=
  c5_temporal_reject_amended
    ⟨.date, "login_time", .varchar 32, some "0",
      .fail (em "Can not change DATEV2 to VARCHAR")⟩ (by decide) (by decide)

/-- C6 counterexample: the claim predicts that a CHAR source altered to
DATETIME with the unparseable DEFAULT literal "0" fails with `Can not
change default value`, but the regression test asserts the analyzer
error `date literal [0] is invalid: null`, so the claim as stated is
false.  (The claim also fails in the other direction: DEFAULT "1" parses
as TINYINT, yet CHAR → TINYINT still fails with the default-value
message rather than the generic one.) -/
theorem c6_counterexample : ¬ claimC6 := by
  intro h
  have h0 := h ⟨.char 255, "username", .datetime, some "0",
      .fail (em "date literal [0] is invalid: null")⟩
    (by decide) (by decide) (by decide) "0" rfl
  exact absurd h0 (by decide)

/-- C6 amended: in the regression test, a CHAR/VARCHAR source carrying a
DEFAULT literal fails with `Can not change default value` for every
integer-family target (those pairs are type-compatible, so the
default-value check is what fires — before any generic error); with the
generic `Can not change VARCHAR to <TARGET>` message for BOOLEAN and
DECIMAL targets; and with `date literal [<lit>] is invalid: null` for a
DATETIME target whose literal is not a date. -/
theorem c6_charlike_default_amended (c : AlterCase) (hmem : c ∈ testCases)
    (hsrc : c.srcType.isCharLike = true) (hd : c.tgtDefault.isSome = true) :
    (c.tgtType.isIntFamily = true → c.expected = .fail (em defaultValueMsg)) ∧
    ((c.tgtType == .boolean || c.tgtType.isDecimal) = true →
      c.expected = .fail (em (genericMsg c.srcType c.tgtType))) ∧
    (c.tgtType = .datetime →
      c.expected = .fail (em (dateLiteralMsg (c.tgtDefault.getD "")))) := by
  have H : ∀ x ∈ testCases, x.srcType.isCharLike = true → x.tgtDefault.isSome = true →
      ((x.tgtType.isIntFamily = true → x.expected = .fail (em defaultValueMsg)) ∧
       ((x.tgtType == .boolean || x.tgtType.isDecimal) = true →
         x.expected = .fail (em (genericMsg x.srcType x.tgtType))) ∧
       (x.tgtType = .datetime →
         x.expected = .fail (em (dateLiteralMsg (x.tgtDefault.getD ""))))) := by
    decide
  exact H c hmem hsrc hd

/-- Witness for the amended C6 at the CHAR → TINYINT DEFAULT "1"
scenario: the default-value error fires although "1" parses as
TINYINT. -/
theorem c6_charlike_default_amended_witness :
    ((DataType.tinyint).isIntFamily = true →
      Outcome.fail (em "Can not change default value") = .fail (em defaultValueMsg)) ∧
    ((DataType.tinyint == .boolean || (DataType.tinyint).isDecimal) = true →
      Outcome.fail (em "Can not change default value") =
        .fail (em (genericMsg (.char 255) .tinyint))) ∧
    (DataType.tinyint = .datetime →
      Outcome.fail (em "Can not change default value") =
        .fail (em (dateLiteralMsg ((some "1").getD "")))) :=
  c6_charlike_default_amended
    ⟨.char 255, "username", .tinyint, some "1",
      .fail (em "Can not change default value")⟩ (by decide) (by decide) (by decide)

/-- Helper for C7: the modelled matrix denies narrowing a KEY column
within the integer family with the generic message. -/
theorem checkColumn_int_narrow (s t : DataType) (name : String)
    (hs : s.isIntFamily = true) (ht : t.isIntFamily = true)
    (hlt : t.intRank.getD 0 < s.intRank.getD 0) :
    checkColumn ⟨s, name, true, none⟩ ⟨t, name, true, none⟩ = .deny (genericMsg s t) := by
  have hne : (s == t) = false := by
    rw [beq_eq_false_iff_ne]
    rintro rfl
    exact absurd hlt (lt_irrefl _)
  have hpa : pairAllowed s t = false := by
    unfold pairAllowed
    simp only [hne, Bool.false_eq_true, if_false, hs, ht, Bool.and_self, if_true,
      decide_eq_false_iff_not]
    omega
  have hff : t.isFloatFamily = false := by
    cases t <;> simp_all [DataType.isIntFamily, DataType.intRank, DataType.isFloatFamily]
  have hstring : (t == DataType.string) = false := by
    cases t <;> simp_all [DataType.isIntFamily, DataType.intRank]
  unfold checkColumn
  simp only [hff, Bool.and_false, Bool.false_eq_true, if_false, hstring]
  unfold checkColumn.checkColumnRest
  simp [hpa]

/-- C7 counterexample: the claim spells the narrowing rejection
`Cannot change <wider> to <narrower>`, but the regression test's
LARGEINT key → INT key scenario asserts `Can not change LARGEINT to
INT` (with a space in `Can not`), so the claim as stated is false. -/
theorem c7_counterexample : ¬ claimC7 := by
  intro h
  have h0 := h ⟨.largeint, "sn_number", .int, none,
      .fail (em "Can not change LARGEINT to INT")⟩
    (by decide) (by decide) (by decide) (by decide)
  exact absurd h0 (by decide)

/-- C7 amended: narrowing a KEY column within the integer family is
rejected with `Can not change <wider> to <narrower>` — every such
scenario of the regression test asserts it (LARGEINT → TINYINT /
SMALLINT / INT / BIGINT), and the modelled matrix denies every
rank-decreasing integer pair with that generic message. -/
theorem c7_key_narrowing_amended (c : AlterCase) (hmem : c ∈ testCases)
    (hs : c.srcType.isIntFamily = true) (ht : c.tgtType.isIntFamily = true)
    (hlt : c.tgtType.intRank.getD 0 < c.srcType.intRank.getD 0) :
    c.expected = .fail (em ("Can not change " ++ c.srcType.plainName ++ " to " ++
      c.tgtType.plainName)) ∧
    (∀ s t : DataType, ∀ name : String, s.isIntFamily = true → t.isIntFamily = true →
      t.intRank.getD 0 < s.intRank.getD 0 →
      checkColumn ⟨s, name, true, none⟩ ⟨t, name, true, none⟩ = .deny (genericMsg s t)) := by
  constructor
  · have H : ∀ x ∈ testCases, x.srcType.isIntFamily = true →
        x.tgtType.isIntFamily = true →
        x.tgtType.intRank.getD 0 < x.srcType.intRank.getD 0 →
        x.expected = .fail (em ("Can not change " ++ x.srcType.plainName ++ " to " ++
          x.tgtType.plainName)) := by
      decide
    exact H c hmem hs ht hlt
  · intro s t name h1 h2 h3
    exact checkColumn_int_narrow s t name h1 h2 h3

/-- Witness for the amended C7 at the LARGEINT → INT scenario. -/
theorem c7_key_narrowing_amended_witness :
    (Outcome.fail (em "Can not change LARGEINT to INT") =
      .fail (em ("Can not change " ++ DataType.plainName .largeint ++ " to " ++
        DataType.plainName .int))) ∧
    (∀ s t : DataType, ∀ name : String, s.isIntFamily = true → t.isIntFamily = true →
      t.intRank.getD 0 < s.intRank.getD 0 →
      checkColumn ⟨s, name, true, none⟩ ⟨t, name, true, none⟩ = .deny (genericMsg s t)) :=
  c7_key_narrowing_amended
    ⟨.largeint, "sn_number", .int, none, .fail (em "Can not change LARGEINT to INT")⟩
    (by decide) (by decide) (by decide) (by decide)

/-- Helper for C8: the modelled matrix rejects VARCHAR(n) → VARCHAR(m)
with m < n (and no default-value change) with the narrowing message,
whose target label carries the declared length. -/
theorem checkColumn_varchar_narrow (n k : Nat) (name : String) (h : k < n) :
    checkColumn ⟨.varchar n, name, true, none⟩ ⟨.varchar k, name, true, none⟩ =
      .deny (narrowMsg "varchar" ("varchar(" ++ toString k ++ ")")) := by
  have hne : ((DataType.varchar n) == .varchar k) = false := by
    rw [beq_eq_false_iff_ne]
    intro he
    cases he
    exact absurd h (lt_irrefl _)
  unfold checkColumn
  simp only [DataType.isFloatFamily, Bool.and_false, Bool.false_eq_true, if_false]
  have hpa : pairAllowed (.varchar n) (.varchar k) = true := by
    unfold pairAllowed
    simp [hne, DataType.isIntFamily, DataType.intRank, DataType.isDecimal,
      DataType.isTemporal, DataType.isCharLike]
  unfold checkColumn.checkColumnRest
  simp only [hpa, Bool.not_true, Bool.false_eq_true, if_false]
  simp only [ne_eq, bne_self_eq_false, Bool.false_eq_true, if_false]
  unfold checkWidth
  simp [DataType.textWidth, h, DataType.lowerName]

/-- C8 counterexample: the claim demands the narrowing message for every
type change whose VARCHAR(m) target is narrower than the source's
width, but the regression test's CHAR(255) → VARCHAR(32) DEFAULT "0"
scenario (32 < 255) fails with `Can not change default value` instead,
so the claim as stated is false. -/
theorem c8_counterexample : ¬ claimC8 := by
  intro h
  have h0 := h ⟨.char 255, "username", .varchar 32, some "0",
      .fail (em "Can not change default value")⟩
    (by decide) (by decide) (by decide)
  exact absurd h0 (by decide)

/-- C8 amended: a type change whose VARCHAR(m) target is narrower than
the source's width — provided the column's DEFAULT is unchanged — is
rejected with `Can not change from wider type <source> to narrower type
varchar(m)`, the target printed with its declared length (the
regression test's LARGEINT → VARCHAR(2) scenario); the modelled matrix
rejects every VARCHAR(n) → VARCHAR(m) narrowing this way, in particular
VARCHAR(100) → VARCHAR(2) with `Can not change from wider type varchar
to narrower type varchar(2)`. -/
theorem c8_varchar_narrowing_amended (c : AlterCase) (hmem : c ∈ testCases)
    (hcr : keyTypeForbiddenAtCreate c.srcType = false)
    (hnd : c.tgtDefault = none)
    (hm : (match c.tgtType with
           | .varchar m => m < c.srcType.textWidth
           | _ => false) = true) :
    c.expected = .fail (em (narrowMsg c.srcType.lowerName
      ("varchar(" ++ toString (match c.tgtType with | .varchar m => m | _ => 0) ++ ")"))) ∧
    (∀ n k : Nat, ∀ name : String, k < n →
      checkColumn ⟨.varchar n, name, true, none⟩ ⟨.varchar k, name, true, none⟩ =
        .deny (narrowMsg "varchar" ("varchar(" ++ toString k ++ ")"))) ∧
    checkColumn ⟨.varchar 100, "sn_number", true, none⟩
        ⟨.varchar 2, "sn_number", true, none⟩ =
      .deny (narrowMsg "varchar" "varchar(2)") := by
  refine ⟨?_, fun n k name h => checkColumn_varchar_narrow n k name h,
    checkColumn_varchar_narrow 100 2 "sn_number" (by decide)⟩
  have H : ∀ x ∈ testCases, keyTypeForbiddenAtCreate x.srcType = false →
      x.tgtDefault = none →
      (match x.tgtType with
       | .varchar m => m < x.srcType.textWidth
       | _ => false) = true →
      x.expected = .fail (em (narrowMsg x.srcType.lowerName
        ("varchar(" ++ toString (match x.tgtType with | .varchar m => m | _ => 0) ++ ")"))) := by
    decide
  exact H c hmem hcr hnd hm

/-- Witness for the amended C8 at the LARGEINT → VARCHAR(2) scenario. -/
theorem c8_varchar_narrowing_amended_witness :
    (Outcome.fail (em "Can not change from wider type largeint to narrower type varchar(2)") =
      .fail (em (narrowMsg (DataType.lowerName .largeint)
        ("varchar(" ++ toString (match DataType.varchar 2 with
                                 | .varchar m => m
                                 | _ => 0) ++ ")")))) ∧
    (∀ n k : Nat, ∀ name : String, k < n →
      checkColumn ⟨.varchar n, name, true, none⟩ ⟨.varchar k, name, true, none⟩ =
        .deny (narrowMsg "varchar" ("varchar(" ++ toString k ++ ")"))) ∧
    checkColumn ⟨.varchar 100, "sn_number", true, none⟩
        ⟨.varchar 2, "sn_number", true, none⟩ =
      .deny (narrowMsg "varchar" "varchar(2)") :=
  c8_varchar_narrowing_amended
    ⟨.largeint, "sn_number", .varchar 2, none,
      .fail (em "Can not change from wider type largeint to narrower type varchar(2)")⟩
    (by decide) (by decide) (by decide) (by decide)

/-- C9: the LARGEINT key → VARCHAR(100) key alter on the seven-row table
succeeds — the regression test marks the scenario as succeeding, the
modelled job reaches FINISHED with the schema version advanced by one,
every original integer value re-encoded as its decimal text form, and
the post-alter insert of the non-numeric string value "vasd" is accepted
by the new VARCHAR(100) column. -/
theorem c9_largeint_to_varchar100_succeeds :
    runJob largeintTable varchar100Col false =
      (.finished, ⟨2, varchar100Col, snTexts⟩) ∧
    (⟨.largeint, "sn_number", .varchar 100, none, .success⟩ : AlterCase) ∈ testCases ∧
    valueFits varchar100Col.dtype (.strV "vasd") = true := by
  refine ⟨by decide, by decide, by decide⟩

/-- C10: in every generic-shaped rejection `Can not change <S> to <T>`
asserted by a creatable scenario of the regression test, the printed
labels are exactly the unified physical names (`genericMsg`): temporal
sources print DATEV2, CHAR sources print VARCHAR, DECIMAL targets print
their storage width; in particular CHAR → BOOLEAN prints `Can not
change VARCHAR to BOOLEAN` and DATE → DECIMAL prints `Can not change
DATEV2 to DECIMAL32`. -/
theorem c10_unified_labels (c : AlterCase) (hmem : c ∈ testCases)
    (hcr : keyTypeForbiddenAtCreate c.srcType = false)
    (m : String) (hf : c.expected = .fail m) (hg : msgHasGenericShape m = true) :
    m = em (genericMsg c.srcType c.tgtType) ∧
    genericMsg (.char 255) .boolean = "Can not change VARCHAR to BOOLEAN" ∧
    genericMsg .date (.decimal 9 0) = "Can not change DATEV2 to DECIMAL32" := by
  refine ⟨?_, by decide, by decide⟩
  have H : ∀ x ∈ testCases, keyTypeForbiddenAtCreate x.srcType = false →
      genericLabelOk x = true := by decide
  have h2 := H c hmem hcr
  unfold genericLabelOk at h2
  rw [hf] at h2
  simp only [hg, Bool.not_true, Bool.false_or, beq_iff_eq] at h2
  exact h2

/-- Witness for C10 at the CHAR(255) → BOOLEAN scenario. -/
theorem c10_unified_labels_witness :
    em "Can not change VARCHAR to BOOLEAN" = em (genericMsg (.char 255) .boolean) ∧
    genericMsg (.char 255) .boolean = "Can not change VARCHAR to BOOLEAN" ∧
    genericMsg .date (.decimal 9 0) = "Can not change DATEV2 to DECIMAL32" :=
  c10_unified_labels
    ⟨.char 255, "username", .boolean, some "1",
      .fail (em "Can not change VARCHAR to BOOLEAN")⟩
    (by decide) (by decide) (em "Can not change VARCHAR to BOOLEAN") rfl (by decide)

end DorisSchemaChange
